import Mathlib

/-!
# Verification of the `aap` trading multi-agent system

Shallow embedding of `src/aap/teams/agents/trading_multi_agent_pydantic.py`
and `src/aap/tools/search/service.py`.

Modelling conventions:
* Python `float` is modelled as `ℚ` (exact arithmetic); the facts proved here
  do not depend on rounding behaviour.
* `uuid.uuid4()` / `datetime.now()` are modelled by an explicit generator
  state `Gen` (a counter) threaded through every constructor call; `str(uuid)`
  and `isoformat()` are the generated strings.
* Python exceptions are modelled with `Except String`, the error text being
  the exception message.
* `dict[str, Any]` payloads are association lists `List (String × Value)`
  over a JSON-like `Value` type.
-/

namespace AAP

/-- `LayerType(StrEnum)` from the source. -/
inductive LayerType where
  | strategic
  | tactical
  | execution
  | monitoring
  | coordination
deriving DecidableEq

/-- The `StrEnum` string value of a `LayerType` (`use_enum_values` serialization). -/
def LayerType.str : LayerType → String
  | .strategic => "strategic"
  | .tactical => "tactical"
  | .execution => "execution"
  | .monitoring => "monitoring"
  | .coordination => "coordination"

/-- Parse a layer string back to the enum (pydantic validation of the field). -/
def LayerType.ofStr : String → Option LayerType
  | "strategic" => some .strategic
  | "tactical" => some .tactical
  | "execution" => some .execution
  | "monitoring" => some .monitoring
  | "coordination" => some .coordination
  | _ => none

/-- `MessageType(StrEnum)` from the source. -/
inductive MessageType where
  | command
  | query
  | response
  | alert
  | heartbeat
deriving DecidableEq

/-- The `StrEnum` string value of a `MessageType`. -/
def MessageType.str : MessageType → String
  | .command => "command"
  | .query => "query"
  | .response => "response"
  | .alert => "alert"
  | .heartbeat => "heartbeat"

/-- Parse a message-type string back to the enum. -/
def MessageType.ofStr : String → Option MessageType
  | "command" => some .command
  | "query" => some .query
  | "response" => some .response
  | "alert" => some .alert
  | "heartbeat" => some .heartbeat
  | _ => none

/-- `Priority(StrEnum)` from the source. -/
inductive Priority where
  | high
  | medium
  | low
deriving DecidableEq, BEq

/-- The `StrEnum` string value of a `Priority`; Python compares members of a
`StrEnum` by exactly this string. -/
def Priority.str : Priority → String
  | .high => "high"
  | .medium => "medium"
  | .low => "low"

/-- Parse a priority string back to the enum. -/
def Priority.ofStr : String → Option Priority
  | "high" => some .high
  | "medium" => some .medium
  | "low" => some .low
  | _ => none

/-- JSON-like values: the model of Python `Any` as it appears inside
message payloads (`dict[str, Any]`). Numbers are exact rationals. -/
inductive Value where
  | null
  | bool (b : Bool)
  | num (q : ℚ)
  | str (s : String)
  | list (xs : List Value)
  | dict (kvs : List (String × Value))

/-- `v.get(k, d)` for a Python value known to be a `dict`; on a non-dict the
default is returned (used only where the source has already checked
`isinstance(v, dict)`). -/
def Value.getD (v : Value) (k : String) (d : Value) : Value :=
  match v with
  | .dict kvs => (kvs.lookup k).getD d
  | _ => d

/-- `v.get(k, d)` where `v` may be any Python object: calling `.get` on a
non-dict raises `AttributeError`. -/
def Value.pyGet (v : Value) (k : String) (d : Value) : Except String Value :=
  match v with
  | .dict kvs => .ok ((kvs.lookup k).getD d)
  | _ => .error "AttributeError: object has no attribute get"

/-- Python `dict` assignment `m[k] = v`: replaces in place if the key exists,
appends otherwise. -/
def dictInsert : List (String × Value) → String → Value → List (String × Value)
  | [], k, v => [(k, v)]
  | (k', v') :: rest, k, v =>
      if k' == k then (k', v) :: rest else (k', v') :: dictInsert rest k v

/-- `TradingMessage` from the source.  `message_id`/`timestamp` are the opaque
strings generated at construction time. -/
structure TradingMessage where
  message_id : String
  timestamp : String
  source_layer : LayerType
  source_agent : String
  target_layer : LayerType
  target_agent : String
  message_type : MessageType
  priority : Priority
  payload : List (String × Value)
  metadata : List (String × Value)

/-- `model_dump` / `model_dump_json` of a `TradingMessage`: with
`use_enum_values = True` the enum fields serialize to their strings, the
uuid and timestamp to their string forms. -/
def serializeMessage (m : TradingMessage) : Value :=
  .dict [
    ("message_id", .str m.message_id),
    ("timestamp", .str m.timestamp),
    ("source_layer", .str m.source_layer.str),
    ("source_agent", .str m.source_agent),
    ("target_layer", .str m.target_layer.str),
    ("target_agent", .str m.target_agent),
    ("message_type", .str m.message_type.str),
    ("priority", .str m.priority.str),
    ("payload", .dict m.payload),
    ("metadata", .dict m.metadata)]

/-- `TradingMessage.model_validate` on a wire value: every field must be
present with the right shape, enum strings are validated back to enums. -/
def parseMessage (v : Value) : Option TradingMessage :=
  match v with
  | .dict kvs =>
    match kvs.lookup "message_id", kvs.lookup "timestamp",
        kvs.lookup "source_layer", kvs.lookup "source_agent",
        kvs.lookup "target_layer", kvs.lookup "target_agent",
        kvs.lookup "message_type", kvs.lookup "priority",
        kvs.lookup "payload", kvs.lookup "metadata" with
    | some (.str mid), some (.str ts), some (.str sl), some (.str sa),
      some (.str tl), some (.str ta), some (.str mt), some (.str pr),
      some (.dict pl), some (.dict md) =>
      match LayerType.ofStr sl, LayerType.ofStr tl,
          MessageType.ofStr mt, Priority.ofStr pr with
      | some sl', some tl', some mt', some pr' =>
          some ⟨mid, ts, sl', sa, tl', ta, mt', pr', pl, md⟩
      | _, _, _, _ => none
    | _, _, _, _, _, _, _, _, _, _ => none
  | _ => none

/-- Generator state for `uuid.uuid4()` and `datetime.now()`: a counter that
every object construction advances. -/
structure Gen where
  counter : Nat
deriving DecidableEq

/-- The fresh uuid string produced at the current generator state. -/
def Gen.fresh (g : Gen) : String := "u" ++ toString g.counter

/-- The `datetime.now().isoformat()` string at the current generator state. -/
def Gen.now (g : Gen) : String := "t" ++ toString g.counter

/-- Advance the generator (one object was constructed). -/
def Gen.tick (g : Gen) : Gen := ⟨g.counter + 1⟩

/-- `TradingMessage(...)` construction: `message_id`/`timestamp` come from
their default factories at generator state `g` (the caller ticks `g`). -/
def mkMessage (sl : LayerType) (sa : String) (tl : LayerType) (ta : String)
    (mt : MessageType) (pr : Priority) (payload metadata : List (String × Value))
    (g : Gen) : TradingMessage :=
  { message_id := g.fresh
    timestamp := g.now
    source_layer := sl
    source_agent := sa
    target_layer := tl
    target_agent := ta
    message_type := mt
    priority := pr
    payload := payload
    metadata := metadata }

/-- `TradingAgent._create_response`: source is the responder's layer/name,
target is the original sender, priority is copied, metadata records the
originating message id. -/
def createResponse (layer : LayerType) (name : String)
    (orig : TradingMessage) (payload : List (String × Value))
    (mt : MessageType := .response) (g : Gen) : TradingMessage :=
  mkMessage layer name orig.source_layer orig.source_agent mt orig.priority
    payload [("response_to", .str orig.message_id)] g

/-- `TradingAgent._create_error_response`. -/
def createErrorResponse (layer : LayerType) (name : String)
    (orig : TradingMessage) (errorMessage : String) (g : Gen) : TradingMessage :=
  createResponse layer name orig
    [("error", .str errorMessage), ("status", .str "failed")] .alert g

/-- `Allocation` value object. -/
structure Allocation where
  stocks : ℚ
  bonds : ℚ
  cash : ℚ
  rebalance_trigger : ℚ
deriving DecidableEq

/-- The sum computed by `Allocation.validate_allocation_sum`:
`sum(values.get(k, 0) for k in ["stocks", "bonds", "cash"])` over
`info.data`, which holds only the previously validated fields. -/
def allocValidatorTotal (data : List (String × ℚ)) : ℚ :=
  ((["stocks", "bonds", "cash"].map (fun k => (data.lookup k).getD 0))).sum

/-- `Allocation(...)` construction under pydantic validation.  Fields are
validated in declaration order (stocks, bonds, cash, rebalance_trigger);
for each of stocks/bonds/cash the `ge=0, le=1` bound runs, then
`validate_allocation_sum` with `info.data` = the fields validated so far
(pydantic reports all failures together; success/failure agrees with this
sequential model). -/
def validateAllocation (stocks bonds cash rebalance_trigger : ℚ) :
    Except String Allocation :=
  if ¬(0 ≤ stocks ∧ stocks ≤ 1) then .error "stocks out of range" else
  if allocValidatorTotal [] > 1 then
    .error "Allocation percentages must sum to <= 1" else
  if ¬(0 ≤ bonds ∧ bonds ≤ 1) then .error "bonds out of range" else
  if allocValidatorTotal [("stocks", stocks)] > 1 then
    .error "Allocation percentages must sum to <= 1" else
  if ¬(0 ≤ cash ∧ cash ≤ 1) then .error "cash out of range" else
  if allocValidatorTotal [("stocks", stocks), ("bonds", bonds)] > 1 then
    .error "Allocation percentages must sum to <= 1" else
  if ¬(0 ≤ rebalance_trigger ∧ rebalance_trigger ≤ 1) then
    .error "rebalance_trigger out of range" else
  .ok ⟨stocks, bonds, cash, rebalance_trigger⟩

/-- `Allocation.model_dump()`. -/
def dumpAllocation (a : Allocation) : List (String × Value) :=
  [("stocks", .num a.stocks), ("bonds", .num a.bonds),
   ("cash", .num a.cash), ("rebalance_trigger", .num a.rebalance_trigger)]

/-- `RiskMetrics` value object. -/
structure RiskMetrics where
  portfolio_var : ℚ
  expected_shortfall : ℚ
  max_drawdown : ℚ
  beta : ℚ
  risk_limits : List (String × ℚ)

/-- `RiskMetrics(...)` construction under validation (`ge=0` on the first
three fields; `beta` and `risk_limits` unconstrained). -/
def validateRiskMetrics (portfolio_var expected_shortfall max_drawdown beta : ℚ)
    (risk_limits : List (String × ℚ)) : Except String RiskMetrics :=
  if ¬(0 ≤ portfolio_var) then .error "portfolio_var out of range" else
  if ¬(0 ≤ expected_shortfall) then .error "expected_shortfall out of range" else
  if ¬(0 ≤ max_drawdown) then .error "max_drawdown out of range" else
  .ok ⟨portfolio_var, expected_shortfall, max_drawdown, beta, risk_limits⟩

/-- `RiskMetrics.model_dump()`. -/
def dumpRiskMetrics (r : RiskMetrics) : List (String × Value) :=
  [("portfolio_var", .num r.portfolio_var),
   ("expected_shortfall", .num r.expected_shortfall),
   ("max_drawdown", .num r.max_drawdown),
   ("beta", .num r.beta),
   ("risk_limits", .dict (r.risk_limits.map (fun kv => (kv.1, .num kv.2))))]

/-- `TradingSignal` value object. -/
structure TradingSignal where
  signal : String
  confidence : ℚ
  entry_price : Option ℚ
  stop_loss : Option ℚ
  take_profit : Option ℚ
  position_size : Option ℚ
  reason : Option String

/-- `ge`/`le` constraints on an optional numeric field: checked only when a
value is present. -/
def optInRange (lo : ℚ) (hi : Option ℚ) (v : Option ℚ) : Bool :=
  match v with
  | none => true
  | some q => decide (lo ≤ q) && (match hi with
      | none => true
      | some h => decide (q ≤ h))

/-- `TradingSignal(...)` construction under validation
(`signal` is `Literal["BUY", "SELL", "HOLD"]`, `confidence` in `[0,1]`,
optional prices `ge=0`, `position_size` in `[0,1]`). -/
def validateTradingSignal (signal : String) (confidence : ℚ)
    (entry_price stop_loss take_profit position_size : Option ℚ)
    (reason : Option String) : Except String TradingSignal :=
  if ¬(signal = "BUY" ∨ signal = "SELL" ∨ signal = "HOLD") then
    .error "signal not a valid literal" else
  if ¬(0 ≤ confidence ∧ confidence ≤ 1) then .error "confidence out of range" else
  if ¬(optInRange 0 none entry_price) then .error "entry_price out of range" else
  if ¬(optInRange 0 none stop_loss) then .error "stop_loss out of range" else
  if ¬(optInRange 0 none take_profit) then .error "take_profit out of range" else
  if ¬(optInRange 0 (some 1) position_size) then
    .error "position_size out of range" else
  .ok ⟨signal, confidence, entry_price, stop_loss, take_profit, position_size,
    reason⟩

/-- Optional field in a `model_dump`: `None` becomes `null`. -/
def dumpOptNum : Option ℚ → Value
  | none => .null
  | some q => .num q

/-- Optional string field in a `model_dump`. -/
def dumpOptStr : Option String → Value
  | none => .null
  | some s => .str s

/-- `TradingSignal.model_dump()`. -/
def dumpTradingSignal (s : TradingSignal) : List (String × Value) :=
  [("signal", .str s.signal), ("confidence", .num s.confidence),
   ("entry_price", dumpOptNum s.entry_price),
   ("stop_loss", dumpOptNum s.stop_loss),
   ("take_profit", dumpOptNum s.take_profit),
   ("position_size", dumpOptNum s.position_size),
   ("reason", dumpOptStr s.reason)]

/-- `BacktestStats` value object. -/
structure BacktestStats where
  sharpe_ratio : ℚ
  max_drawdown : ℚ
  win_rate : ℚ
  profit_factor : ℚ

/-- `BacktestStats(...)` construction under validation. -/
def validateBacktestStats (sharpe_ratio max_drawdown win_rate profit_factor : ℚ) :
    Except String BacktestStats :=
  if ¬(0 ≤ max_drawdown) then .error "max_drawdown out of range" else
  if ¬(0 ≤ win_rate ∧ win_rate ≤ 1) then .error "win_rate out of range" else
  if ¬(0 ≤ profit_factor) then .error "profit_factor out of range" else
  .ok ⟨sharpe_ratio, max_drawdown, win_rate, profit_factor⟩

/-- `BacktestStats.model_dump()`. -/
def dumpBacktestStats (b : BacktestStats) : List (String × Value) :=
  [("sharpe_ratio", .num b.sharpe_ratio), ("max_drawdown", .num b.max_drawdown),
   ("win_rate", .num b.win_rate), ("profit_factor", .num b.profit_factor)]

/-- `OrderPlan` value object (`order_id` generated at construction). -/
structure OrderPlan where
  order_id : String
  symbol : String
  side : String
  quantity : Int
  order_type : String
  price : ℚ
  algorithm : String
  expected_slippage : ℚ
  estimated_fees : ℚ

/-- `OrderPlan(...)` construction from the dynamic values the execution agent
pulls out of the request payload, under pydantic validation:
`symbol` a string with `min_length=1`, `side` a `Literal["BUY","SELL"]`,
`quantity` an integer with `gt=0`, `price` a number with `gt=0`.
An integral float is accepted for `quantity` (lax coercion); other shapes
fail validation.  Consumes one uuid for `order_id`. -/
def validateOrderPlan (symbol side quantity price : Value) (g : Gen) :
    Except String OrderPlan :=
  match symbol with
  | .str sym =>
    if sym.length < 1 then .error "symbol too short" else
    match side with
    | .str sd =>
      if ¬(sd = "BUY" ∨ sd = "SELL") then .error "side not a valid literal" else
      match quantity with
      | .num q =>
        if ¬(q.den = 1) then .error "quantity not an integer" else
        if ¬(0 < q.num) then .error "quantity out of range" else
        match price with
        | .num p =>
          if ¬(0 < p) then .error "price out of range" else
          .ok ⟨g.fresh, sym, sd, q.num, "LIMIT", p, "VWAP", 0, 0⟩
        | _ => .error "price not a number"
      | _ => .error "quantity not an integer"
    | _ => .error "side not a string"
  | _ => .error "symbol not a string"

/-- `OrderPlan.model_dump()`. -/
def dumpOrderPlan (o : OrderPlan) : List (String × Value) :=
  [("order_id", .str o.order_id), ("symbol", .str o.symbol),
   ("side", .str o.side), ("quantity", .num o.quantity),
   ("order_type", .str o.order_type), ("price", .num o.price),
   ("algorithm", .str o.algorithm),
   ("expected_slippage", .num o.expected_slippage),
   ("estimated_fees", .num o.estimated_fees)]

/-- `Alert` value object (`timestamp` generated at construction). -/
structure Alert where
  type : String
  severity : String
  message : String
  timestamp : String

/-- `Alert.model_dump()`. -/
def dumpAlert (a : Alert) : List (String × Value) :=
  [("type", .str a.type), ("severity", .str a.severity),
   ("message", .str a.message), ("timestamp", .str a.timestamp)]

/-- `Task` value object (`task_id`/`created_at` generated at construction). -/
structure Task where
  task_id : String
  task_type : String
  priority : Priority
  created_at : String
  status : String
  payload : List (String × Value)

/-- `Task(task_type=..., priority=..., payload=...)` construction:
`task_type` must be a string, `payload` a dict (pydantic validation of the
dynamic values the scheduler pulls out of the message); `status` defaults to
`"queued"`.  Consumes one uuid for `task_id`. -/
def validateTask (task_type : Value) (priority : Priority) (payload : Value)
    (g : Gen) : Except String Task :=
  match task_type with
  | .str tt =>
    match payload with
    | .dict kvs => .ok ⟨g.fresh, tt, priority, g.now, "queued", kvs⟩
    | _ => .error "payload not a dict"
  | _ => .error "task_type not a string"

/-- A subclass `_process_logic` implementation: takes the generator state,
the scheduler task queue (`self.task_queue`, used only by the scheduler) and
the message; on success returns the new generator state, the new queue, and
the response; a raised exception is an `error` with the exception text. -/
def Handler : Type :=
  Gen → List Task → TradingMessage → Except String (Gen × List Task × TradingMessage)

/-- `PortfolioManagerAgent._process_logic`. -/
def portfolioManagerLogic : Handler := fun g q m =>
  if m.message_type = .query then
    match validateAllocation 0.6 0.3 0.1 0.05 with
    | .error e => .error e
    | .ok allocation =>
      .ok (g.tick, q, createResponse .strategic "PortfolioManager" m
        [("allocation", .dict (dumpAllocation allocation)),
         ("expected_return", .num 0.08),
         ("expected_volatility", .num 0.15),
         ("sharpe_ratio", .num 0.53),
         ("timestamp", .str g.now)] .response g)
  else
    .ok (g.tick, q, createResponse .strategic "PortfolioManager" m
      [("status", .str "received"), ("agent", .str "PortfolioManager")]
      .response g)

/-- `RiskManagerAgent._process_logic`. -/
def riskManagerLogic : Handler := fun g q m =>
  match validateRiskMetrics 0.02 0.035 0.15 1.1
      [("max_position_size", 0.1), ("max_sector_exposure", 0.25),
       ("stop_loss", 0.05)] with
  | .error e => .error e
  | .ok risk_metrics =>
    .ok (g.tick, q, createResponse .strategic "RiskManager" m
      [("risk_metrics", .dict (dumpRiskMetrics risk_metrics)),
       ("risk_status", .str "within_limits"),
       ("recommendations", .list
         [.str "Consider reducing tech sector exposure",
          .str "Implement tighter stop-losses",
          .str "Increase cash allocation"])] .response g)

/-- `StrategyResearchAgent._process_logic`. -/
def strategyResearchLogic : Handler := fun g q m =>
  let strategy_type := (m.payload.lookup "strategy_type").getD (.str "momentum")
  match validateTradingSignal "BUY" 0.75 (some 100.0) (some 95.0) (some 110.0)
      (some 0.05) none with
  | .error e => .error e
  | .ok signal =>
    match validateBacktestStats 1.2 0.08 0.65 1.5 with
    | .error e => .error e
    | .ok backtest_stats =>
      .ok (g.tick, q, createResponse .tactical "StrategyResearch" m
        [("strategy_type", strategy_type),
         ("signals", .dict (dumpTradingSignal signal)),
         ("backtest_stats", .dict (dumpBacktestStats backtest_stats))]
        .response g)

/-- `OrderExecutionAgent._process_logic`. -/
def orderExecutionLogic : Handler := fun g q m =>
  let order_request := (m.payload.lookup "order").getD (.dict [])
  match order_request.pyGet "symbol" (.str "AAPL") with
  | .error e => .error e
  | .ok sym =>
    match order_request.pyGet "side" (.str "BUY") with
    | .error e => .error e
    | .ok side =>
      match order_request.pyGet "quantity" (.num 100) with
      | .error e => .error e
      | .ok qty =>
        -- the source's default is the float literal `100.0`, i.e. the
        -- rational 100
        match order_request.pyGet "price" (.num 100) with
        | .error e => .error e
        | .ok price =>
          match validateOrderPlan sym side qty price g with
          | .error e => .error e
          | .ok order_plan =>
            let g := g.tick
            .ok (g.tick, q, createResponse .execution "OrderExecution" m
              [("execution_plan", .dict (dumpOrderPlan order_plan)),
               ("status", .str "pending_execution"),
               ("estimated_completion", .str "2024-01-01T10:30:00Z")]
              .response g)

/-- `RealTimeRiskAgent._process_logic`. -/
def realTimeRiskLogic : Handler := fun g q m =>
  let alert : Alert :=
    ⟨"POSITION_SIZE", "MEDIUM", "Tech sector exposure approaching limit", g.now⟩
  let alerts : List Value := [.dict (dumpAlert alert)]
  let risk_check : Value := .dict
    [("current_var", .num 0.018),
     ("exposure_check", .str "PASSED"),
     ("margin_usage", .num 0.65),
     ("alerts", .list alerts)]
  let g := g.tick
  .ok (g.tick, q, createResponse .monitoring "RealTimeRisk" m
    [("risk_status", risk_check),
     ("action_required", .bool (decide (alerts.length > 0))),
     ("next_check", .str "2024-01-01T10:05:00Z")] .response g)

/-- Python string comparison `a <= b` on the underlying character sequences
(lexicographic by code point). -/
def strLeList : List Char → List Char → Bool
  | [], _ => true
  | _ :: _, [] => false
  | x :: xs, y :: ys =>
      if x < y then true else if y < x then false else strLeList xs ys

/-- Python `a <= b` on strings. -/
def strLe (a b : String) : Bool := strLeList a.data b.data

/-- The comparison Python's `list.sort(key=lambda t: t.priority, reverse=True)`
effectively sorts by: descending in the raw `StrEnum` label strings, ties
broken by the original position (the sort is stable). -/
def taskLe (a b : Task) : Bool := strLe b.priority.str a.priority.str

/-- Python `list.sort(key=lambda t: t.priority, reverse=True)` on the task
queue: a stable sort, descending in the raw `StrEnum` label strings. -/
def taskQueueSort (q : List Task) : List Task :=
  q.mergeSort taskLe

/-- `TaskSchedulerAgent._process_logic`. -/
def taskSchedulerLogic : Handler := fun g q m =>
  if m.message_type = .command then
    let task_data := (m.payload.lookup "task").getD (.dict [])
    match task_data.pyGet "type" (.str "default") with
    | .error e => .error e
    | .ok tt =>
      match validateTask tt m.priority task_data g with
      | .error e => .error e
      | .ok task =>
        let g := g.tick
        let q := q ++ [task]
        let q := taskQueueSort q
        .ok (g.tick, q, createResponse .coordination "TaskScheduler" m
          [("task_id", .str task.task_id),
           ("queue_position", .num q.length),
           ("estimated_start", .str "2024-01-01T10:01:00Z")] .response g)
  else
    .ok (g.tick, q, createResponse .coordination "TaskScheduler" m
      [("status", .str "scheduler_active"), ("queue_size", .num q.length)]
      .response g)

/-- The static data of one concrete `TradingAgent` subclass: its name, layer
and `_process_logic`. -/
structure AgentSpec where
  name : String
  layer : LayerType
  logic : Handler

/-- The mutable state of one agent: lifecycle `self.state`, `self.memory`,
and (for the scheduler) `self.task_queue`. -/
structure AgentRun where
  state : String
  memory : List (String × Value)
  queue : List Task

/-- Agent state right after `__init__`. -/
def initialRun : AgentRun := { state := "idle", memory := [], queue := [] }

/-- `TradingAgent.process_message`: set status to `"processing"`, record the
message into memory, run the subclass handler; on success reset status to
`"idle"`, on any exception set status to `"error"` and return the synthesized
error response. -/
def processMessage (spec : AgentSpec) (g : Gen) (run : AgentRun)
    (m : TradingMessage) : Gen × AgentRun × TradingMessage :=
  let run1 : AgentRun :=
    { run with
      state := "processing"
      memory := dictInsert run.memory m.message_id
        (.dict [("received", serializeMessage m),
                ("processed_at", .str g.now)]) }
  match spec.logic g run1.queue m with
  | .ok (g', q', resp) => (g', { run1 with state := "idle", queue := q' }, resp)
  | .error e =>
      (g.tick, { run1 with state := "error" },
        createErrorResponse spec.layer spec.name m e g)

/-- The sequence of values the lifecycle status takes across one
`process_message` call: the status on entry, the `"processing"` written at
the start, and the status at return. -/
def processStatusTrace (spec : AgentSpec) (g : Gen) (run : AgentRun)
    (m : TradingMessage) : List String :=
  [run.state, "processing", (processMessage spec g run m).2.1.state]

/-- The six concrete agents registered by
`TradingMultiAgentSystem._initialize_agents`. -/
inductive AgentKey where
  | portfolioManager
  | riskManager
  | strategyResearch
  | orderExecution
  | realtimeRisk
  | taskScheduler
deriving DecidableEq

/-- The `AgentSpec` of each registered agent. -/
def agentSpec : AgentKey → AgentSpec
  | .portfolioManager => ⟨"PortfolioManager", .strategic, portfolioManagerLogic⟩
  | .riskManager => ⟨"RiskManager", .strategic, riskManagerLogic⟩
  | .strategyResearch => ⟨"StrategyResearch", .tactical, strategyResearchLogic⟩
  | .orderExecution => ⟨"OrderExecution", .execution, orderExecutionLogic⟩
  | .realtimeRisk => ⟨"RealTimeRisk", .monitoring, realTimeRiskLogic⟩
  | .taskScheduler => ⟨"TaskScheduler", .coordination, taskSchedulerLogic⟩

/-- `self.agents.get(name)`: the registry keys written by
`_initialize_agents`, looked up by exact string match. -/
def registryLookup : String → Option AgentKey
  | "portfolio_manager" => some .portfolioManager
  | "risk_manager" => some .riskManager
  | "strategy_research" => some .strategyResearch
  | "order_execution" => some .orderExecution
  | "realtime_risk" => some .realtimeRisk
  | "task_scheduler" => some .taskScheduler
  | _ => none

/-- Mutable state of the whole `TradingMultiAgentSystem`: the six agents'
states plus the generator. -/
structure SysState where
  pmRun : AgentRun
  rmRun : AgentRun
  srRun : AgentRun
  oeRun : AgentRun
  rtrRun : AgentRun
  tsRun : AgentRun
  gen : Gen

/-- System state right after construction. -/
def initialSys (g : Gen) : SysState :=
  ⟨initialRun, initialRun, initialRun, initialRun, initialRun, initialRun, g⟩

/-- The run state of one registered agent. -/
def SysState.runOf (s : SysState) : AgentKey → AgentRun
  | .portfolioManager => s.pmRun
  | .riskManager => s.rmRun
  | .strategyResearch => s.srRun
  | .orderExecution => s.oeRun
  | .realtimeRisk => s.rtrRun
  | .taskScheduler => s.tsRun

/-- Replace the run state of one registered agent. -/
def SysState.withRun (s : SysState) : AgentKey → AgentRun → SysState
  | .portfolioManager, r => { s with pmRun := r }
  | .riskManager, r => { s with rmRun := r }
  | .strategyResearch, r => { s with srRun := r }
  | .orderExecution, r => { s with oeRun := r }
  | .realtimeRisk, r => { s with rtrRun := r }
  | .taskScheduler, r => { s with tsRun := r }

/-- `TradingMultiAgentSystem.send_message`: look the target agent up by name;
if absent synthesize the "Agent not found" alert, otherwise delegate to the
agent's `process_message`. -/
def sysSend (s : SysState) (m : TradingMessage) : SysState × TradingMessage :=
  match registryLookup m.target_agent with
  | none =>
      ({ s with gen := s.gen.tick },
        mkMessage .coordination "system" m.target_layer m.target_agent
          .alert .high [("error", .str "Agent not found")]
          [("original_message_id", .str m.message_id)] s.gen)
  | some k =>
      let (g', run', resp) := processMessage (agentSpec k) s.gen (s.runOf k) m
      ({ s.withRun k run' with gen := g' }, resp)

/-- `TradingWorkflowResult`. -/
structure TradingWorkflowResult where
  portfolio_allocation : Option (List (String × Value)) := none
  risk_assessment : Option (List (String × Value)) := none
  strategy_recommendation : Option (List (String × Value)) := none
  execution_plan : Option (List (String × Value)) := none
  risk_monitoring : Option (List (String × Value)) := none
  success : Bool := true
  errors : List String := []

/-- Stage-1 message of `execute_trading_workflow` (strategic decision). -/
def portfolioMsg (market_data : Value) (g : Gen) : TradingMessage :=
  mkMessage .coordination "system" .strategic "portfolio_manager" .query .high
    [("market_data", market_data)]
    [("workflow_step", .str "strategic_decision")] g

/-- Stage-2 message (risk assessment), carrying stage-1's payload. -/
def riskMsg (portfolioPayload : List (String × Value)) (g : Gen) :
    TradingMessage :=
  mkMessage .coordination "system" .strategic "risk_manager" .query .high
    [("portfolio", .dict portfolioPayload)]
    [("workflow_step", .str "risk_assessment")] g

/-- Stage-3 message (strategy generation), carrying the market snapshot and
stage-2's `risk_metrics` sub-field. -/
def strategyMsg (market_data : Value) (riskPayload : List (String × Value))
    (g : Gen) : TradingMessage :=
  mkMessage .coordination "system" .tactical "strategy_research" .query .medium
    [("market_data", market_data),
     ("risk_limits", (riskPayload.lookup "risk_metrics").getD (.dict []))]
    [("workflow_step", .str "strategy_generation")] g

/-- The guard of the conditional execution stage:
`isinstance(signals, dict) and signals.get("signal") == "BUY"`. -/
def isBuySignal (signals : Value) : Bool :=
  match signals with
  | .dict kvs =>
    match kvs.lookup "signal" with
    | some (.str s) => s == "BUY"
    | _ => false
  | _ => false

/-- Stage-4 message (order execution), carrying the synthesized order whose
price is stage-3's `entry_price` (default `100.0`). -/
def executionMsg (signals : Value) (g : Gen) : TradingMessage :=
  mkMessage .coordination "system" .execution "order_execution" .command
    .medium
    [("order", .dict
      [("symbol", .str "AAPL"), ("side", .str "BUY"),
       ("quantity", .num 100),
       ("price", signals.getD "entry_price" (.num 100))])]
    [("workflow_step", .str "order_execution")] g

/-- Stage-5 message (risk monitoring), carrying stage-1's payload. -/
def monitorMsg (portfolioPayload : List (String × Value)) (g : Gen) :
    TradingMessage :=
  mkMessage .coordination "system" .monitoring "realtime_risk" .query .medium
    [("portfolio", .dict portfolioPayload)]
    [("workflow_step", .str "risk_monitoring")] g

/-- Stage 5 of the workflow, shared by the three ways of arriving there
(execution stage succeeded, skipped because the signal was not `"BUY"`, or
skipped because the signals sub-field was not a dict). -/
def workflowStage5 {σ : Type}
    (send : σ → TradingMessage → σ × Except String TradingMessage)
    (g : Gen) (s : σ) (portfolioPayload : List (String × Value))
    (r : TradingWorkflowResult) : TradingWorkflowResult :=
  match send s (monitorMsg portfolioPayload g) with
  | (_, .error e) => { r with success := false, errors := r.errors ++ [e] }
  | (_, .ok resp) => { r with risk_monitoring := some resp.payload }

/-- `TradingMultiAgentSystem.execute_trading_workflow`, parameterized by the
(stateful, possibly raising) send operation: the five stages run strictly
sequentially, each recording its payload into the aggregate; the first raise
aborts the remaining stages, flips `success` and appends the exception text,
leaving the already-recorded stage results in place. -/
def executeTradingWorkflow {σ : Type}
    (send : σ → TradingMessage → σ × Except String TradingMessage)
    (g : Gen) (s : σ) (market_data : Value) : TradingWorkflowResult :=
  let r : TradingWorkflowResult := {}
  match send s (portfolioMsg market_data g) with
  | (_, .error e) => { r with success := false, errors := r.errors ++ [e] }
  | (s, .ok portfolio_response) =>
    let r := { r with portfolio_allocation := some portfolio_response.payload }
    let g := g.tick
    match send s (riskMsg portfolio_response.payload g) with
    | (_, .error e) => { r with success := false, errors := r.errors ++ [e] }
    | (s, .ok risk_response) =>
      let r := { r with risk_assessment := some risk_response.payload }
      let g := g.tick
      match send s (strategyMsg market_data risk_response.payload g) with
      | (_, .error e) => { r with success := false, errors := r.errors ++ [e] }
      | (s, .ok strategy_response) =>
        let r := { r with
          strategy_recommendation := some strategy_response.payload }
        let g := g.tick
        let signals :=
          (strategy_response.payload.lookup "signals").getD (.dict [])
        if isBuySignal signals then
          match send s (executionMsg signals g) with
          | (_, .error e) =>
              { r with success := false, errors := r.errors ++ [e] }
          | (s, .ok execution_response) =>
            let r := { r with execution_plan := some execution_response.payload }
            workflowStage5 send g.tick s portfolio_response.payload r
        else
          workflowStage5 send g s portfolio_response.payload r

/-- One `process_message` call on the `TaskSchedulerAgent`. -/
def schedStep (g : Gen) (run : AgentRun) (m : TradingMessage) :
    Gen × AgentRun × TradingMessage :=
  processMessage (agentSpec .taskScheduler) g run m

/-- A sequence of `process_message` calls on the `TaskSchedulerAgent`. -/
def schedRun : Gen → AgentRun → List TradingMessage → Gen × AgentRun
  | g, run, [] => (g, run)
  | g, run, m :: ms => schedRun (schedStep g run m).1 (schedStep g run m).2.1 ms

/-- The task (if any) that `TaskSchedulerAgent._process_logic` creates and
appends for one message: a command message whose task construction succeeds
yields the `Task`; other messages (and raising constructions) yield none. -/
def tsNewTask (g : Gen) (m : TradingMessage) : Option Task :=
  if m.message_type = .command then
    let task_data := (m.payload.lookup "task").getD (.dict [])
    match task_data.pyGet "type" (.str "default") with
    | .error _ => none
    | .ok tt =>
      match validateTask tt m.priority task_data g with
      | .error _ => none
      | .ok task => some task
  else none

/-- The tasks appended to the scheduler queue over a sequence of calls, in
insertion (arrival) order, before any sorting. -/
def schedInserted : Gen → AgentRun → List TradingMessage → List Task
  | _, _, [] => []
  | g, run, m :: ms =>
      (tsNewTask g m).toList ++
        schedInserted (schedStep g run m).1 (schedStep g run m).2.1 ms

/-- Rank of a priority label under descending lexicographic string order:
`"medium" > "low" > "high"`, so medium sorts first and high last. -/
def prioRank : Priority → Nat
  | .medium => 0
  | .low => 1
  | .high => 2

/-- `pydantic.fields.FieldInfo` as far as `google_search` consults it: the
declared default of the `num_results` parameter. -/
structure FieldInfoInt where
  default : Int

/-- The `num_results` argument of `google_search`: either an actually passed
integer, or the unbound `FieldInfo` sentinel left by the `Field(10, ...)`
declaration when the wrapper invokes the function without that argument. -/
inductive NumResultsArg where
  | val (n : Int)
  | info (fi : FieldInfoInt)

/-- The expression
`num_results.default if isinstance(num_results, FieldInfo) else 10`
from `google_search`. -/
def numParamValue : NumResultsArg → Int
  | .info fi => fi.default
  | .val _ => 10

/-- A query-parameter value in the outbound HTTP request. -/
inductive ParamValue where
  | str (s : String)
  | int (n : Int)
deriving DecidableEq

/-- The query parameters `google_search` sends to the Google Custom Search
API, given the two environment keys (`None` = unset; an empty string is falsy
and also takes the early-return branch, in which case no request is made). -/
def googleSearchParams (apiKey cseId : Option String) (query : String)
    (num_results : NumResultsArg) : Option (List (String × ParamValue)) :=
  match apiKey, cseId with
  | some k, some c =>
    if k = "" ∨ c = "" then none
    else some
      [("key", .str k), ("cx", .str c), ("q", .str query),
       ("num", .int (numParamValue num_results)),
       ("language", .str "en"), ("country", .str "us")]
  | _, _ => none

/-- The response-addressing contract of `_create_response`: source is the
responder, target is the original sender, priority copied, metadata records
the originating message id. -/
def WellAddressed (layer : LayerType) (name : String)
    (m resp : TradingMessage) : Prop :=
  resp.source_layer = layer ∧ resp.source_agent = name ∧
  resp.target_layer = m.source_layer ∧ resp.target_agent = m.source_agent ∧
  resp.priority = m.priority ∧
  resp.metadata.lookup "response_to" = some (.str m.message_id)

/-- A command for the execution agent whose `order` payload is not a dict, so
the handler's `.get` call raises `AttributeError`. -/
def badOrderMsg : TradingMessage :=
  mkMessage .coordination "system" .execution "order_execution" .command
    .medium [("order", .num 0)] [] ⟨100⟩

/-- A command for the execution agent with an empty payload, so the handler
succeeds on all the declared defaults. -/
def okOrderMsg : TradingMessage :=
  mkMessage .coordination "system" .execution "order_execution" .command
    .medium [] [] ⟨101⟩

/-- A message addressed to a target name absent from the agent registry. -/
def ghostMsg : TradingMessage :=
  mkMessage .coordination "system" .execution "ghost" .query .high [] [] ⟨102⟩

/-- A canned agent response used to drive the workflow in closed tests: its
payload carries a `"BUY"` signal with entry price 100. -/
def buyResp : TradingMessage :=
  mkMessage .tactical "StrategyResearch" .coordination "system" .response
    .medium
    [("signals", .dict [("signal", .str "BUY"), ("entry_price", .num 100)])]
    [] ⟨103⟩

/-- A send operation that answers the first call with `buyResp` and raises
`"boom"` on the second: drives the workflow into a stage-2 failure. -/
def sendFailSecond (n : Nat) (_ : TradingMessage) :
    Nat × Except String TradingMessage :=
  (n + 1, if n = 0 then .ok buyResp else .error "boom")

/-- A send operation that always answers with `buyResp`. -/
def sendAlwaysBuy (u : Unit) (_ : TradingMessage) :
    Unit × Except String TradingMessage :=
  (u, .ok buyResp)

/-- Holds of a handler result when it is a success whose response payload
carries an `execution_plan` whose `side` is `"BUY"` and whose `price` is 100. -/
def execRespHasBuyPlan : Except String (Gen × List Task × TradingMessage) → Prop
  | .ok (_, _, resp) =>
      ∃ pd, resp.payload.lookup "execution_plan" = some (.dict pd) ∧
        pd.lookup "side" = some (.str "BUY") ∧
        pd.lookup "price" = some (.num 100)
  | .error _ => False

/-! ## Theorems -/

theorem layerOfStr_str (l : LayerType) : LayerType.ofStr l.str = some l := by
  cases l <;> rfl

theorem messageTypeOfStr_str (t : MessageType) :
    MessageType.ofStr t.str = some t := by
  cases t <;> rfl

theorem priorityOfStr_str (p : Priority) : Priority.ofStr p.str = some p := by
  cases p <;> rfl

/-- **C7.** For every valid `TradingMessage`, serializing it to its wire form
and parsing that form back yields a message with the identical `message_id`
and identical values for every field (round-trip identity). -/
theorem serialize_parse_roundtrip (m : TradingMessage) :
    parseMessage (serializeMessage m) = some m := by
  cases m with
  | mk mid ts sl sa tl ta mt pr pl md =>
    simp [serializeMessage, parseMessage, List.lookup,
      layerOfStr_str, messageTypeOfStr_str, priorityOfStr_str]

/-- **C6.** The claim says any `Allocation` whose stocks/bonds/cash sum
exceeds 1 fails validation.  The code contradicts its own docstring
("Ensure allocation percentages sum to 1"): the per-field validator only sees
the previously validated fields, so `cash` is never included in the sum and
`(0.5, 0.4, 0.5)` — sum `1.4 > 1` — validates successfully. -/
theorem allocation_sum_check_misses_cash :
    validateAllocation 0.5 0.4 0.5 0.05 = .ok ⟨0.5, 0.4, 0.5, 0.05⟩ ∧
      ¬((0.5 : ℚ) + 0.4 + 0.5 ≤ 1) := by
  constructor
  · simp only [validateAllocation, allocValidatorTotal, List.map, List.lookup,
      List.sum_cons, List.sum_nil]
    simp
    norm_num
  · norm_num

/-- **C10.** For every integer actually passed as `num_results`,
`google_search` puts the literal `10` into the outbound request's `num`
parameter — the caller-supplied value never influences the request; the
declared default is used only when the argument is still an unbound
`FieldInfo`. -/
theorem google_search_num_is_ten :
    (∀ (k c q : String) (n : Int),
        googleSearchParams (some k) (some c) q (.val n) =
          googleSearchParams (some k) (some c) q (.val 10)) ∧
    (∀ (k c q : String) (n : Int) (ps : List (String × ParamValue)),
        googleSearchParams (some k) (some c) q (.val n) = some ps →
          ps.lookup "num" = some (.int 10)) ∧
    (∀ fi : FieldInfoInt, numParamValue (.info fi) = fi.default) := by
  refine ⟨fun k c q n => rfl, ?_, fun fi => rfl⟩
  intro k c q n ps h
  simp only [googleSearchParams] at h
  split at h
  · simp at h
  · injection h with h
    subst h
    rfl

theorem google_search_num_is_ten_witness :
    [(("key" : String), ParamValue.str "k"), ("cx", .str "c"),
     ("q", .str "hello"), ("num", .int 10), ("language", .str "en"),
     ("country", .str "us")].lookup "num" = some (.int 10) :=
  google_search_num_is_ten.2.1 "k" "c" "hello" 7 _ rfl

/-- **C5.** For every message whose `target_agent` is not a key of the agent
registry, `send_message` returns (never raises) an alert message of high
priority whose payload carries `"Agent not found"` and whose metadata records
the original message id; lookup is exact string-key match against the six
registered names. -/
theorem send_message_unknown_agent :
    (∀ (s : SysState) (m : TradingMessage),
        registryLookup m.target_agent = none →
          (sysSend s m).2.message_type = .alert ∧
          (sysSend s m).2.priority = .high ∧
          (sysSend s m).2.payload.lookup "error" =
            some (.str "Agent not found") ∧
          (sysSend s m).2.metadata.lookup "original_message_id" =
            some (.str m.message_id) ∧
          (sysSend s m).1 = { s with gen := s.gen.tick }) ∧
    (∀ nm : String, (registryLookup nm).isSome = true ↔
        nm ∈ ["portfolio_manager", "risk_manager", "strategy_research",
              "order_execution", "realtime_risk", "task_scheduler"]) := by
  constructor
  · intro s m h
    unfold sysSend
    rw [h]
    exact ⟨rfl, rfl, rfl, rfl, rfl⟩
  · intro nm
    unfold registryLookup
    split <;> simp_all

theorem send_message_unknown_agent_witness :
    (sysSend (initialSys ⟨0⟩) ghostMsg).2.message_type = .alert ∧
    (sysSend (initialSys ⟨0⟩) ghostMsg).2.priority = .high ∧
    (sysSend (initialSys ⟨0⟩) ghostMsg).2.payload.lookup "error" =
      some (.str "Agent not found") ∧
    (sysSend (initialSys ⟨0⟩) ghostMsg).2.metadata.lookup
      "original_message_id" = some (.str ghostMsg.message_id) ∧
    (sysSend (initialSys ⟨0⟩) ghostMsg).1 =
      { initialSys ⟨0⟩ with gen := Gen.tick ⟨0⟩ } :=
  send_message_unknown_agent.1 (initialSys ⟨0⟩) ghostMsg rfl

/-- **C1.** For every input message and every agent, if the subclass handler
raises during `process_message`, the call returns (does not propagate) an
alert-type message whose payload holds the error text under `"error"` and
`"failed"` under `"status"`, and the agent's state is set to `"error"`. -/
theorem process_message_error_to_alert :
    ∀ (spec : AgentSpec) (g : Gen) (run : AgentRun) (m : TradingMessage)
      (e : String),
      spec.logic g run.queue m = .error e →
        (processMessage spec g run m).2.2.message_type = .alert ∧
        (processMessage spec g run m).2.2.payload.lookup "error" =
          some (.str e) ∧
        (processMessage spec g run m).2.2.payload.lookup "status" =
          some (.str "failed") ∧
        (processMessage spec g run m).2.1.state = "error" := by
  intro spec g run m e h
  unfold processMessage
  simp only [h]
  simp [createErrorResponse, createResponse, mkMessage, List.lookup]

theorem process_message_error_to_alert_witness :
    (processMessage (agentSpec .orderExecution) ⟨0⟩ initialRun
      badOrderMsg).2.2.message_type = .alert ∧
    (processMessage (agentSpec .orderExecution) ⟨0⟩ initialRun
      badOrderMsg).2.2.payload.lookup "error" =
      some (.str "AttributeError: object has no attribute get") ∧
    (processMessage (agentSpec .orderExecution) ⟨0⟩ initialRun
      badOrderMsg).2.2.payload.lookup "status" = some (.str "failed") ∧
    (processMessage (agentSpec .orderExecution) ⟨0⟩ initialRun
      badOrderMsg).2.1.state = "error" :=
  process_message_error_to_alert (agentSpec .orderExecution) ⟨0⟩ initialRun
    badOrderMsg "AttributeError: object has no attribute get" rfl

theorem portfolioManagerLogic_wellAddressed :
    ∀ (g : Gen) (q : List Task) (m : TradingMessage) gq,
      portfolioManagerLogic g q m = .ok gq →
        WellAddressed .strategic "PortfolioManager" m gq.2.2 := by
  intro g q m gq h
  simp only [portfolioManagerLogic] at h
  repeat' split at h
  all_goals try exact Except.noConfusion h
  all_goals injection h with h
  all_goals subst h
  all_goals simp [WellAddressed, createResponse, mkMessage, List.lookup]

theorem riskManagerLogic_wellAddressed :
    ∀ (g : Gen) (q : List Task) (m : TradingMessage) gq,
      riskManagerLogic g q m = .ok gq →
        WellAddressed .strategic "RiskManager" m gq.2.2 := by
  intro g q m gq h
  simp only [riskManagerLogic] at h
  repeat' split at h
  all_goals try exact Except.noConfusion h
  all_goals injection h with h
  all_goals subst h
  all_goals simp [WellAddressed, createResponse, mkMessage, List.lookup]

theorem strategyResearchLogic_wellAddressed :
    ∀ (g : Gen) (q : List Task) (m : TradingMessage) gq,
      strategyResearchLogic g q m = .ok gq →
        WellAddressed .tactical "StrategyResearch" m gq.2.2 := by
  intro g q m gq h
  simp only [strategyResearchLogic] at h
  repeat' split at h
  all_goals try exact Except.noConfusion h
  all_goals injection h with h
  all_goals subst h
  all_goals simp [WellAddressed, createResponse, mkMessage, List.lookup]

theorem orderExecutionLogic_wellAddressed :
    ∀ (g : Gen) (q : List Task) (m : TradingMessage) gq,
      orderExecutionLogic g q m = .ok gq →
        WellAddressed .execution "OrderExecution" m gq.2.2 := by
  intro g q m gq h
  simp only [orderExecutionLogic] at h
  repeat' split at h
  all_goals try exact Except.noConfusion h
  all_goals injection h with h
  all_goals subst h
  all_goals simp [WellAddressed, createResponse, mkMessage, List.lookup]

theorem realTimeRiskLogic_wellAddressed :
    ∀ (g : Gen) (q : List Task) (m : TradingMessage) gq,
      realTimeRiskLogic g q m = .ok gq →
        WellAddressed .monitoring "RealTimeRisk" m gq.2.2 := by
  intro g q m gq h
  simp only [realTimeRiskLogic] at h
  injection h with h
  subst h
  simp [WellAddressed, createResponse, mkMessage, List.lookup]

theorem taskSchedulerLogic_wellAddressed :
    ∀ (g : Gen) (q : List Task) (m : TradingMessage) gq,
      taskSchedulerLogic g q m = .ok gq →
        WellAddressed .coordination "TaskScheduler" m gq.2.2 := by
  intro g q m gq h
  simp only [taskSchedulerLogic] at h
  repeat' split at h
  all_goals try exact Except.noConfusion h
  all_goals injection h with h
  all_goals subst h
  all_goals simp [WellAddressed, createResponse, mkMessage, List.lookup]

theorem processMessage_wellAddressed (spec : AgentSpec)
    (hspec : ∀ (g : Gen) (q : List Task) (m : TradingMessage) gq,
      spec.logic g q m = .ok gq → WellAddressed spec.layer spec.name m gq.2.2) :
    ∀ (g : Gen) (run : AgentRun) (m : TradingMessage),
      WellAddressed spec.layer spec.name m (processMessage spec g run m).2.2 := by
  intro g run m
  rcases hl : spec.logic g run.queue m with e | ⟨g', q', resp⟩
  · unfold processMessage
    simp only [hl]
    simp [WellAddressed, createErrorResponse, createResponse, mkMessage,
      List.lookup]
  · have hw := hspec g run.queue m (g', q', resp) hl
    unfold processMessage
    simp only [hl]
    simpa using hw

/-- **C2.** For every registered agent and every input message, the message
returned by `process_message` has source layer/agent equal to the agent's own
layer and name, target layer/agent equal to the input's source layer/agent,
priority copied from the input, and `metadata["response_to"]` equal to the
string form of the input's message id — on both the success and error paths. -/
theorem process_message_response_addressing :
    ∀ (k : AgentKey) (g : Gen) (run : AgentRun) (m : TradingMessage),
      WellAddressed (agentSpec k).layer (agentSpec k).name m
        (processMessage (agentSpec k) g run m).2.2 := by
  intro k
  cases k
  · exact processMessage_wellAddressed _ portfolioManagerLogic_wellAddressed
  · exact processMessage_wellAddressed _ riskManagerLogic_wellAddressed
  · exact processMessage_wellAddressed _ strategyResearchLogic_wellAddressed
  · exact processMessage_wellAddressed _ orderExecutionLogic_wellAddressed
  · exact processMessage_wellAddressed _ realTimeRiskLogic_wellAddressed
  · exact processMessage_wellAddressed _ taskSchedulerLogic_wellAddressed

/-- **C3.** For every market-data input, if a stage of
`execute_trading_workflow` raises, the returned aggregate has
`success = false`, its error list holds the exception text, every stage field
after the failing stage is `None` (no later stage runs), and every stage
field recorded before the failure keeps its recorded payload (no rollback).
One conjunct per failure point (the execution stage can fail only when the
`"BUY"` branch is taken, and the monitoring stage is reached either after the
execution stage or directly when it is skipped). -/
theorem workflow_stage_failure {σ : Type}
    (send : σ → TradingMessage → σ × Except String TradingMessage)
    (g : Gen) (s0 : σ) (md : Value) (e : String) :
    (∀ s', send s0 (portfolioMsg md g) = (s', .error e) →
      executeTradingWorkflow send g s0 md =
        { portfolio_allocation := none, risk_assessment := none,
          strategy_recommendation := none, execution_plan := none,
          risk_monitoring := none, success := false, errors := [e] }) ∧
    (∀ s1 r1 s', send s0 (portfolioMsg md g) = (s1, .ok r1) →
      send s1 (riskMsg r1.payload g.tick) = (s', .error e) →
      executeTradingWorkflow send g s0 md =
        { portfolio_allocation := some r1.payload, risk_assessment := none,
          strategy_recommendation := none, execution_plan := none,
          risk_monitoring := none, success := false, errors := [e] }) ∧
    (∀ s1 r1 s2 r2 s', send s0 (portfolioMsg md g) = (s1, .ok r1) →
      send s1 (riskMsg r1.payload g.tick) = (s2, .ok r2) →
      send s2 (strategyMsg md r2.payload g.tick.tick) = (s', .error e) →
      executeTradingWorkflow send g s0 md =
        { portfolio_allocation := some r1.payload,
          risk_assessment := some r2.payload,
          strategy_recommendation := none, execution_plan := none,
          risk_monitoring := none, success := false, errors := [e] }) ∧
    (∀ s1 r1 s2 r2 s3 r3 s', send s0 (portfolioMsg md g) = (s1, .ok r1) →
      send s1 (riskMsg r1.payload g.tick) = (s2, .ok r2) →
      send s2 (strategyMsg md r2.payload g.tick.tick) = (s3, .ok r3) →
      isBuySignal ((r3.payload.lookup "signals").getD (.dict [])) = true →
      send s3 (executionMsg ((r3.payload.lookup "signals").getD (.dict []))
          g.tick.tick.tick) = (s', .error e) →
      executeTradingWorkflow send g s0 md =
        { portfolio_allocation := some r1.payload,
          risk_assessment := some r2.payload,
          strategy_recommendation := some r3.payload,
          execution_plan := none,
          risk_monitoring := none, success := false, errors := [e] }) ∧
    (∀ s1 r1 s2 r2 s3 r3 s4 r4 s',
      send s0 (portfolioMsg md g) = (s1, .ok r1) →
      send s1 (riskMsg r1.payload g.tick) = (s2, .ok r2) →
      send s2 (strategyMsg md r2.payload g.tick.tick) = (s3, .ok r3) →
      isBuySignal ((r3.payload.lookup "signals").getD (.dict [])) = true →
      send s3 (executionMsg ((r3.payload.lookup "signals").getD (.dict []))
          g.tick.tick.tick) = (s4, .ok r4) →
      send s4 (monitorMsg r1.payload g.tick.tick.tick.tick) = (s', .error e) →
      executeTradingWorkflow send g s0 md =
        { portfolio_allocation := some r1.payload,
          risk_assessment := some r2.payload,
          strategy_recommendation := some r3.payload,
          execution_plan := some r4.payload,
          risk_monitoring := none, success := false, errors := [e] }) ∧
    (∀ s1 r1 s2 r2 s3 r3 s',
      send s0 (portfolioMsg md g) = (s1, .ok r1) →
      send s1 (riskMsg r1.payload g.tick) = (s2, .ok r2) →
      send s2 (strategyMsg md r2.payload g.tick.tick) = (s3, .ok r3) →
      isBuySignal ((r3.payload.lookup "signals").getD (.dict [])) = false →
      send s3 (monitorMsg r1.payload g.tick.tick.tick) = (s', .error e) →
      executeTradingWorkflow send g s0 md =
        { portfolio_allocation := some r1.payload,
          risk_assessment := some r2.payload,
          strategy_recommendation := some r3.payload,
          execution_plan := none,
          risk_monitoring := none, success := false, errors := [e] }) := by
  refine ⟨?_, ?_, ?_, ?_, ?_, ?_⟩
  · intro s' h1
    simp only [executeTradingWorkflow, h1, List.nil_append]
  · intro s1 r1 s' h1 h2
    simp only [executeTradingWorkflow, h1, h2, List.nil_append]
  · intro s1 r1 s2 r2 s' h1 h2 h3
    simp only [executeTradingWorkflow, h1, h2, h3, List.nil_append]
  · intro s1 r1 s2 r2 s3 r3 s' h1 h2 h3 hbuy h4
    simp only [executeTradingWorkflow, h1, h2, h3, hbuy, if_true, h4,
      List.nil_append]
  · intro s1 r1 s2 r2 s3 r3 s4 r4 s' h1 h2 h3 hbuy h4 h5
    simp only [executeTradingWorkflow, workflowStage5, h1, h2, h3, hbuy,
      if_true, h4, h5, List.nil_append]
  · intro s1 r1 s2 r2 s3 r3 s' h1 h2 h3 hbuy h5
    simp only [executeTradingWorkflow, workflowStage5, h1, h2, h3, hbuy,
      Bool.false_eq_true, if_false, h5, List.nil_append]

theorem workflow_stage_failure_witness :
    executeTradingWorkflow sendFailSecond ⟨0⟩ 0 (.dict []) =
      { portfolio_allocation := some buyResp.payload, risk_assessment := none,
        strategy_recommendation := none, execution_plan := none,
        risk_monitoring := none, success := false, errors := ["boom"] } :=
  (workflow_stage_failure sendFailSecond ⟨0⟩ 0 (.dict []) "boom").2.1
    1 buyResp 2 rfl rfl

theorem workflowStage5_execution_plan {σ : Type}
    (send : σ → TradingMessage → σ × Except String TradingMessage)
    (g : Gen) (s : σ) (p : List (String × Value)) (r : TradingWorkflowResult) :
    (workflowStage5 send g s p r).execution_plan = r.execution_plan := by
  unfold workflowStage5
  split <;> rfl

/-- **C4.** In `execute_trading_workflow`, the execution stage runs iff the
strategy response's `signals` sub-field is a mapping whose `"signal"` entry
equals `"BUY"`: otherwise the aggregate's `execution_plan` stays `None`;
when the signal is `"BUY"` with entry price 100.0 the order sent to the
execution agent has price 100.0 and side `"BUY"`, the recorded
`execution_plan` is the execution agent's response payload, and the execution
agent's handler turns that order into a plan with side `"BUY"`, price 100. -/
theorem workflow_execution_stage_condition {σ : Type}
    (send : σ → TradingMessage → σ × Except String TradingMessage)
    (g : Gen) (s0 : σ) (md : Value) :
    ∀ s1 r1 s2 r2 s3 r3,
      send s0 (portfolioMsg md g) = (s1, .ok r1) →
      send s1 (riskMsg r1.payload g.tick) = (s2, .ok r2) →
      send s2 (strategyMsg md r2.payload g.tick.tick) = (s3, .ok r3) →
      (isBuySignal ((r3.payload.lookup "signals").getD (.dict [])) = false →
        (executeTradingWorkflow send g s0 md).execution_plan = none) ∧
      (∀ kvs, (r3.payload.lookup "signals").getD (.dict []) = .dict kvs →
        kvs.lookup "signal" = some (.str "BUY") →
        kvs.lookup "entry_price" = some (.num 100) →
        ((executionMsg ((r3.payload.lookup "signals").getD (.dict []))
            g.tick.tick.tick).payload.lookup "order" =
          some (.dict [("symbol", .str "AAPL"), ("side", .str "BUY"),
            ("quantity", .num 100), ("price", .num 100)])) ∧
        (∀ s4 r4,
          send s3 (executionMsg ((r3.payload.lookup "signals").getD (.dict []))
            g.tick.tick.tick) = (s4, .ok r4) →
          (executeTradingWorkflow send g s0 md).execution_plan =
            some r4.payload) ∧
        (∀ (g' : Gen) (q : List Task),
          execRespHasBuyPlan (orderExecutionLogic g' q
            (executionMsg ((r3.payload.lookup "signals").getD (.dict []))
              g.tick.tick.tick)))) := by
  intro s1 r1 s2 r2 s3 r3 h1 h2 h3
  constructor
  · intro hskip
    simp only [executeTradingWorkflow, h1, h2, h3, hskip, Bool.false_eq_true,
      if_false]
    rw [workflowStage5_execution_plan]
  · intro kvs hsig hsignal hentry
    have hbuy : isBuySignal ((r3.payload.lookup "signals").getD (.dict [])) =
        true := by
      rw [hsig]
      simp [isBuySignal, hsignal]
    refine ⟨?_, ?_, ?_⟩
    · simp [executionMsg, mkMessage, List.lookup, hsig, Value.getD, hentry]
    · intro s4 r4 h4
      simp only [executeTradingWorkflow, h1, h2, h3, hbuy, if_true, h4]
      rw [workflowStage5_execution_plan]
    · intro g' q
      simp only [executionMsg, mkMessage, hsig, Value.getD, hentry,
        Option.getD_some]
      simp [orderExecutionLogic, Value.pyGet, List.lookup, validateOrderPlan,
        execRespHasBuyPlan, dumpOrderPlan, createResponse, mkMessage,
        show "AAPL".length = 4 from rfl]

theorem workflow_execution_stage_condition_witness :
    (executeTradingWorkflow sendAlwaysBuy ⟨0⟩ () (.dict [])).execution_plan =
      some buyResp.payload :=
  ((workflow_execution_stage_condition sendAlwaysBuy ⟨0⟩ () (.dict [])
      () buyResp () buyResp () buyResp rfl rfl rfl).2
    [("signal", .str "BUY"), ("entry_price", .num 100)] rfl rfl rfl).2.1
    () buyResp rfl

/-- **C8 (counterexample).** The claim says every `process_message` call
drives the status idle→processing→idle or idle→processing→error and that no
other transition occurs.  But a call is allowed to start while the status is
`"error"` (left there by an earlier failing call — reachable below with a
malformed order command), and then the observed transition sequence is
error→processing→idle, which is neither of the two claimed shapes. -/
theorem status_transition_claim_false :
    (processMessage (agentSpec .orderExecution) ⟨0⟩ initialRun
        badOrderMsg).2.1.state = "error" ∧
    processStatusTrace (agentSpec .orderExecution) ⟨1⟩
        (processMessage (agentSpec .orderExecution) ⟨0⟩ initialRun
          badOrderMsg).2.1 okOrderMsg = ["error", "processing", "idle"] ∧
    ¬ (∀ (spec : AgentSpec) (g : Gen) (run : AgentRun) (m : TradingMessage),
        processStatusTrace spec g run m = ["idle", "processing", "idle"] ∨
        processStatusTrace spec g run m = ["idle", "processing", "error"]) := by
  refine ⟨rfl, by decide, ?_⟩
  intro h
  have h2 := h (agentSpec .orderExecution) ⟨1⟩
    (processMessage (agentSpec .orderExecution) ⟨0⟩ initialRun badOrderMsg).2.1
    okOrderMsg
  rw [show processStatusTrace (agentSpec .orderExecution) ⟨1⟩
      (processMessage (agentSpec .orderExecution) ⟨0⟩ initialRun
        badOrderMsg).2.1 okOrderMsg = ["error", "processing", "idle"]
    from rfl] at h2
  rcases h2 with h2 | h2 <;> exact absurd h2 (by decide)

/-- **C8 (amended).** Every `process_message` call sets the status to
`"processing"` on entry and to `"idle"` (handler success) or `"error"`
(handler failure) on return, whatever the prior status was; when the prior
status is `"idle"` the transition sequence is exactly idle→processing→idle or
idle→processing→error; and a `send_message` call leaves the status (and whole
state) of every agent other than the target unchanged. -/
theorem status_transitions_amended :
    (∀ (spec : AgentSpec) (g : Gen) (run : AgentRun) (m : TradingMessage) gq,
        spec.logic g run.queue m = .ok gq →
        processStatusTrace spec g run m = [run.state, "processing", "idle"]) ∧
    (∀ (spec : AgentSpec) (g : Gen) (run : AgentRun) (m : TradingMessage) e,
        spec.logic g run.queue m = .error e →
        processStatusTrace spec g run m = [run.state, "processing", "error"]) ∧
    (∀ (spec : AgentSpec) (g : Gen) (run : AgentRun) (m : TradingMessage),
        run.state = "idle" →
        processStatusTrace spec g run m = ["idle", "processing", "idle"] ∨
        processStatusTrace spec g run m = ["idle", "processing", "error"]) ∧
    (∀ (s : SysState) (m : TradingMessage) (k : AgentKey),
        registryLookup m.target_agent ≠ some k →
        (sysSend s m).1.runOf k = s.runOf k) := by
  have hok : ∀ (spec : AgentSpec) (g : Gen) (run : AgentRun)
      (m : TradingMessage) gq, spec.logic g run.queue m = .ok gq →
      processStatusTrace spec g run m = [run.state, "processing", "idle"] := by
    intro spec g run m gq h
    unfold processStatusTrace processMessage
    rcases gq with ⟨g', q', resp⟩
    simp only [h]
  have herr : ∀ (spec : AgentSpec) (g : Gen) (run : AgentRun)
      (m : TradingMessage) e, spec.logic g run.queue m = .error e →
      processStatusTrace spec g run m = [run.state, "processing", "error"] := by
    intro spec g run m e h
    unfold processStatusTrace processMessage
    simp only [h]
  refine ⟨hok, herr, ?_, ?_⟩
  · intro spec g run m hidle
    rcases hl : spec.logic g run.queue m with e | gq
    · right
      have hx := herr spec g run m e hl
      rw [hidle] at hx
      exact hx
    · left
      have hx := hok spec g run m gq hl
      rw [hidle] at hx
      exact hx
  · intro s m k hk
    unfold sysSend
    cases hr : registryLookup m.target_agent with
    | none =>
      cases k <;> rfl
    | some k' =>
      rw [hr] at hk
      rcases hp : processMessage (agentSpec k') s.gen (s.runOf k') m with
        ⟨g', run', resp⟩
      simp only [hp]
      cases k <;> cases k' <;>
        simp_all [SysState.runOf, SysState.withRun]

theorem status_transitions_amended_witness :
    processStatusTrace (agentSpec .riskManager) ⟨0⟩ initialRun okOrderMsg =
      ["idle", "processing", "idle"] ∨
    processStatusTrace (agentSpec .riskManager) ⟨0⟩ initialRun okOrderMsg =
      ["idle", "processing", "error"] :=
  status_transitions_amended.2.2.1 (agentSpec .riskManager) ⟨0⟩ initialRun
    okOrderMsg rfl

theorem strLeList_refl : ∀ l, strLeList l l = true := by
  intro l
  induction l with
  | nil => rfl
  | cons x xs ih => simp [strLeList, ih]

theorem strLeList_trans : ∀ a b c, strLeList a b = true →
    strLeList b c = true → strLeList a c = true := by
  intro a
  induction a with
  | nil => intro b c _ _; rfl
  | cons x xs ih =>
    intro b c hab hbc
    cases b with
    | nil => simp [strLeList] at hab
    | cons y ys =>
      cases c with
      | nil => simp [strLeList] at hbc
      | cons z zs =>
        simp only [strLeList] at *
        by_cases hxy : x < y
        · by_cases hyz : y < z
          · simp [lt_trans hxy hyz]
          · by_cases hzy : z < y
            · simp_all
            · have hyz' : y = z := le_antisymm (not_lt.mp hzy) (not_lt.mp hyz)
              rw [← hyz']
              simp [hxy]
        · by_cases hyx : y < x
          · simp_all
          · have hxy' : x = y := le_antisymm (not_lt.mp hyx) (not_lt.mp hxy)
            rw [hxy']
            rw [hxy'] at hab
            simp only [lt_irrefl, if_false] at hab
            by_cases hyz : y < z
            · simp [hyz]
            · by_cases hzy : z < y
              · simp_all
              · simp only [hyz, hzy, if_false] at hbc ⊢
                exact ih ys zs hab hbc

theorem strLeList_total : ∀ a b, strLeList a b || strLeList b a := by
  intro a
  induction a with
  | nil => intro b; simp [strLeList]
  | cons x xs ih =>
    intro b
    cases b with
    | nil => simp [strLeList]
    | cons y ys =>
      simp only [strLeList]
      by_cases hxy : x < y
      · simp [hxy, asymm hxy]
      · by_cases hyx : y < x
        · simp [hxy, hyx]
        · have hxy' : x = y := le_antisymm (not_lt.mp hyx) (not_lt.mp hxy)
          rw [hxy']
          simp only [lt_irrefl, if_false]
          exact ih ys

theorem taskLe_trans : ∀ (a b c : Task), taskLe a b = true →
    taskLe b c = true → taskLe a c = true := by
  intro a b c hab hbc
  exact strLeList_trans _ _ _ hbc hab

theorem taskLe_total : ∀ (a b : Task), taskLe a b || taskLe b a := by
  intro a b
  exact strLeList_total _ _

theorem taskLe_of_eq_priority {a b : Task} (h : a.priority = b.priority) :
    taskLe a b = true := by
  unfold taskLe strLe
  rw [h]
  exact strLeList_refl _

/-- Stability of the queue sort: filtering by a predicate whose holders are
pairwise `taskLe`-equivalent commutes with the sort. -/
theorem filter_taskQueueSort (p : Task → Bool)
    (hconst : ∀ a b, p a = true → p b = true → taskLe a b = true)
    (l : List Task) :
    (taskQueueSort l).filter p = l.filter p := by
  have hpw : (l.filter p).Pairwise (fun a b => taskLe a b = true) := by
    have h1 : (l.filter p).Pairwise
        (fun a b => p a = true → p b = true → taskLe a b = true) :=
      List.Pairwise.filter _ (List.pairwise_of_forall (fun a b => hconst a b))
    refine h1.imp_of_mem ?_
    intro a b ha hb h
    exact h (List.of_mem_filter ha) (List.of_mem_filter hb)
  have hsub : List.Sublist (l.filter p) (taskQueueSort l) :=
    List.sublist_mergeSort taskLe_trans taskLe_total hpw (List.filter_sublist l)
  have hsub2 : List.Sublist ((l.filter p).filter p)
      ((taskQueueSort l).filter p) :=
    hsub.filter p
  rw [List.filter_filter] at hsub2
  simp only [Bool.and_self] at hsub2
  have hperm : List.Perm ((taskQueueSort l).filter p) (l.filter p) :=
    (List.mergeSort_perm l taskLe).filter p
  exact (hsub2.eq_of_length hperm.length_eq.symm).symm

theorem priority_beq_iff (a b : Priority) : (a == b) = true ↔ a = b := by
  cases a <;> cases b <;> decide

/-- One scheduler call transforms the queue by appending the created task (if
any) and re-sorting; on non-command messages and raising constructions the
queue is unchanged. -/
theorem schedStep_queue (g : Gen) (run : AgentRun) (m : TradingMessage) :
    (schedStep g run m).2.1.queue =
      match tsNewTask g m with
      | some t => taskQueueSort (run.queue ++ [t])
      | none => run.queue := by
  unfold schedStep processMessage tsNewTask
  simp only [agentSpec, taskSchedulerLogic]
  by_cases hc : m.message_type = .command
  · simp only [hc, if_true]
    rcases hpg : ((m.payload.lookup "task").getD (.dict [])).pyGet "type"
        (.str "default") with e | tt
    · simp [hpg]
    · rcases hv : validateTask tt m.priority
          ((m.payload.lookup "task").getD (.dict [])) g with e | t
      · simp [hpg, hv]
      · simp [hpg, hv]
  · simp [hc]

/-- Invariant of a scheduler run: starting from a sorted queue, the queue
stays sorted and, within each priority class, equals the concatenation of the
starting queue's tasks and the inserted tasks in insertion order. -/
theorem schedRun_queue (msgs : List TradingMessage) :
    ∀ (g : Gen) (run : AgentRun),
      run.queue.Pairwise (fun a b => taskLe a b = true) →
      ((schedRun g run msgs).2.queue.Pairwise
          (fun a b => taskLe a b = true) ∧
        ∀ p : Priority,
          (schedRun g run msgs).2.queue.filter (fun t => t.priority == p) =
            (run.queue ++ schedInserted g run msgs).filter
              (fun t => t.priority == p)) := by
  induction msgs with
  | nil =>
    intro g run h
    refine ⟨h, fun p => ?_⟩
    simp [schedRun, schedInserted]
  | cons m ms ih =>
    intro g run h
    have hq := schedStep_queue g run m
    have hconst : ∀ p : Priority, ∀ a b : Task,
        (a.priority == p) = true → (b.priority == p) = true →
        taskLe a b = true := by
      intro p a b ha hb
      exact taskLe_of_eq_priority
        (((priority_beq_iff _ _).mp ha).trans
          (((priority_beq_iff _ _).mp hb)).symm)
    rcases ht : tsNewTask g m with _ | t
    · rw [ht] at hq
      obtain ⟨ih1, ih2⟩ := ih (schedStep g run m).1 (schedStep g run m).2.1
        (hq ▸ h)
      refine ⟨by simpa [schedRun] using ih1, fun p => ?_⟩
      have h2 := ih2 p
      rw [hq] at h2
      simp only [schedRun, schedInserted, ht, Option.toList, List.nil_append]
      exact h2
    · rw [ht] at hq
      have hsorted : (schedStep g run m).2.1.queue.Pairwise
          (fun a b => taskLe a b = true) := by
        rw [hq]
        exact List.sorted_mergeSort taskLe_trans taskLe_total _
      obtain ⟨ih1, ih2⟩ := ih (schedStep g run m).1 (schedStep g run m).2.1
        hsorted
      refine ⟨by simpa [schedRun] using ih1, fun p => ?_⟩
      have h2 := ih2 p
      rw [hq] at h2
      rw [List.filter_append] at h2
      rw [filter_taskQueueSort _ (hconst p) (run.queue ++ [t])] at h2
      simp only [schedRun, schedInserted, ht, Option.toList]
      rw [h2, List.filter_append, List.filter_append, List.filter_append]
      simp

theorem strLe_prioRank : ∀ (x y : Priority),
    strLe y.str x.str = true → prioRank x ≤ prioRank y := by
  intro x y
  cases x <;> cases y <;> decide

/-- **C9.** After every sequence of commands processed by the
`TaskSchedulerAgent` (starting from its empty queue), the task queue is
ordered by descending lexicographic comparison of the raw priority label
strings — all `"medium"` tasks precede all `"low"` tasks, which precede all
`"high"` tasks — and, the sort being stable, tasks of equal priority appear
in their insertion (FIFO) order. -/
theorem scheduler_queue_sorted_stable :
    ∀ (g : Gen) (msgs : List TradingMessage),
      ((schedRun g initialRun msgs).2.queue.Pairwise
        (fun a b => strLe b.priority.str a.priority.str = true)) ∧
      ((schedRun g initialRun msgs).2.queue.Pairwise
        (fun a b => prioRank a.priority ≤ prioRank b.priority)) ∧
      (∀ p : Priority,
        (schedRun g initialRun msgs).2.queue.filter
            (fun t => t.priority == p) =
          (schedInserted g initialRun msgs).filter
            (fun t => t.priority == p)) := by
  intro g msgs
  obtain ⟨h1, h2⟩ := schedRun_queue msgs g initialRun (by simp [initialRun])
  refine ⟨h1, ?_, fun p => ?_⟩
  · exact h1.imp (fun hab => strLe_prioRank _ _ hab)
  · have := h2 p
    simpa [initialRun] using this

end AAP
